import Mathlib

/-!
Verification development for the Locate repository.

Shallow embedding of:
* `src/sqlite.js` — the persistence layer over saved locations
  (`addLocation`, `deleteLocation`), including JavaScript truthiness
  semantics of its validation guards;
* `src/android/.../HighAccuracyLocationModule.kt` — the position
  arbitration session (`startLocationRequest` and its callbacks),
  modelled as a step function over an explicit session state driven
  by a serialized stream of events (location updates and the two
  timers), exactly as the single-looper Android `Handler` delivers
  them;
* `src/App.js` — the haversine distance
  (`calculateDistanceBetweenPoints`) over the reals and the
  nearest-candidate linear scan (`reduce` with strict `<` and an
  `Infinity` initial accumulator) inside
  `checkCurrentLocationAgainstSaved`.
-/

namespace Locate

/-! ## JavaScript truthiness (src/sqlite.js validation guards) -/

/-- Truthiness of a JavaScript number: a number is falsy exactly when it
is `0` (or `NaN`, which has no counterpart in `ℚ`). Used by the `!x`
guards in `src/sqlite.js`. -/
def jsTruthyNum (x : ℚ) : Bool := x != 0

/-- Truthiness of a JavaScript string: a string is falsy exactly when it
is empty. -/
def jsTruthyStr (s : String) : Bool := s != ""

/-- A JavaScript value as seen by `deleteLocation`: either a number, or
a value of any other type carrying only its truthiness. -/
inductive JsVal where
  | num (x : ℚ)
  | other (truthy : Bool)
deriving DecidableEq

/-- Truthiness of a `JsVal`. -/
def JsVal.jsTruthy : JsVal → Bool
  | .num x => jsTruthyNum x
  | .other t => t

/-- The `typeof id === 'number'` test. -/
def JsVal.isNumber : JsVal → Bool
  | .num _ => true
  | .other _ => false

/-- Numeric payload of a `JsVal` (only reached on numbers). -/
def JsVal.numVal : JsVal → ℚ
  | .num x => x
  | .other _ => 0

/-! ## The persistence store (src/sqlite.js) -/

/-- One row of the `locations` table
(`id INTEGER PRIMARY KEY AUTOINCREMENT, latitude REAL, longitude REAL,
timestamp TEXT, name TEXT`). -/
structure SavedRow where
  id : ℕ
  latitude : ℚ
  longitude : ℚ
  timestamp : String
  name : String
deriving DecidableEq

/-- The `locations` table together with the AUTOINCREMENT counter
(never-reused ids). -/
structure Store where
  rows : List SavedRow
  nextId : ℕ
deriving DecidableEq

/-- Embedding of `addLocation` (src/sqlite.js, lines 77–97): the guard
`if (!latitude || !longitude || !timestamp || !name) throw` followed by
the `typeof` number checks (satisfied here by typing) and the INSERT.
Returns the new store and the `insertId`. -/
def addLocation (latitude longitude : ℚ) (timestamp name : String)
    (st : Store) : Except String (Store × ℕ) :=
  if !jsTruthyNum latitude || !jsTruthyNum longitude
      || !jsTruthyStr timestamp || !jsTruthyStr name then
    .error "All location fields are required"
  else
    .ok ({ rows := st.rows ++ [⟨st.nextId, latitude, longitude, timestamp, name⟩],
           nextId := st.nextId + 1 }, st.nextId)

/-- Embedding of `deleteLocation` (src/sqlite.js, lines 112–132): the
guard `if (!id || typeof id !== 'number') throw`, then
`DELETE FROM locations WHERE id = ?` returning `rowsAffected > 0`. -/
def deleteLocation (id : JsVal) (st : Store) :
    Except String (Store × Bool) :=
  if !id.jsTruthy || !id.isNumber then
    .error "Valid location ID is required"
  else
    let remaining := st.rows.filter (fun r => (r.id : ℚ) ≠ id.numVal)
    .ok ({ st with rows := remaining },
         decide (remaining.length < st.rows.length))

/-! ## The position arbitration session (HighAccuracyLocationModule.kt)

The module races the GPS and network providers against a deadline.
All callbacks (location updates, the network grace timer, the timeout
timer) are delivered serially on one looper, so one session is a fold
of a step function over a list of events.
-/

/-- Configuration constants of the companion object. -/
def LOCATION_TIMEOUT : ℤ := 15000
def NETWORK_FALLBACK_DELAY : ℤ := 5000
def GPS_GOOD_ACCURACY_THRESHOLD : ℚ := 20
def NETWORK_ACCEPTABLE_ACCURACY : ℚ := 50

/-- `LocationManager.GPS_PROVIDER`. -/
def GPS_PROVIDER : String := "gps"
/-- `LocationManager.NETWORK_PROVIDER`. -/
def NETWORK_PROVIDER : String := "network"

/-- An `android.location.Location` as the module consumes it: provider
name, accuracy (which a degraded source may not supply), and
coordinates. -/
structure Location where
  provider : String
  accuracy : Option ℚ
  latitude : ℚ
  longitude : ℚ
deriving DecidableEq

/-- Modelled from the Android platform: `Location.getAccuracy()` returns
`0.0` when the fix carries no accuracy estimate, and the module reads
`location.accuracy` without consulting `hasAccuracy()`. -/
def Location.getAccuracy (l : Location) : ℚ := l.accuracy.getD 0

/-- Result delivered to the JavaScript promise. -/
inductive Outcome where
  | resolved (latitude longitude : ℚ)
  | rejected (code : String)
deriving DecidableEq

/-- Which providers are enabled, checked once via
`isProviderEnabled` when the subscriptions are set up. -/
structure Config where
  gpsEnabled : Bool
  networkEnabled : Bool
deriving DecidableEq

/-- The mutable closure state of one `startLocationRequest` session,
plus the observable subscription state of the two providers and the
promise outcome. -/
structure SessionState where
  isRequestCompleted : Bool
  bestLocationFound : Option Location
  gpsActive : Bool
  networkActive : Bool
  outcome : Option Outcome
deriving DecidableEq

/-- The serialized callbacks that can reach a session after
`startLocationRequest` returns: a provider fix (with the elapsed
milliseconds since session start), the network grace-delay timer, and
the timeout timer. -/
inductive Event where
  | locationUpdate (loc : Location) (elapsed : ℤ)
  | networkTimer
  | timeoutTimer
deriving DecidableEq

/-- `updateBestLocationIfBetter` (lines 274–282): replace the best fix
when there is none yet or the new accuracy is strictly smaller. -/
def updateBestLocationIfBetter (newLocation : Location)
    (currentBest : Option Location) : Option Location :=
  match currentBest with
  | none => some newLocation
  | some b =>
      if newLocation.getAccuracy < b.getAccuracy then some newLocation
      else some b

/-- `shouldReturnGpsLocationImmediately` (lines 285–290). -/
def shouldReturnGpsLocationImmediately (isGpsProvider : Bool)
    (accuracy : ℚ) : Bool :=
  isGpsProvider && accuracy ≤ GPS_GOOD_ACCURACY_THRESHOLD

/-- `shouldReturnNetworkLocationAfterDelay` (lines 293–301). -/
def shouldReturnNetworkLocationAfterDelay (isGpsProvider : Bool)
    (elapsed : ℤ) (accuracy : ℚ) : Bool :=
  !isGpsProvider && elapsed > NETWORK_FALLBACK_DELAY
    && accuracy ≤ NETWORK_ACCEPTABLE_ACCURACY

/-- `completeLocationRequest` (lines 304–313): mark completed, remove
the listener from every provider, resolve the promise with the fix's
coordinates. -/
def completeLocationRequest (location : Location) (s : SessionState) :
    SessionState :=
  { s with isRequestCompleted := true
           gpsActive := false
           networkActive := false
           outcome := some (.resolved location.latitude location.longitude) }

/-- `onLocationChanged` (lines 151–181): bail out if completed, update
the best fix, then the two immediate-return checks. -/
def onLocationChanged (loc : Location) (elapsed : ℤ) (s : SessionState) :
    SessionState :=
  if s.isRequestCompleted then s
  else
    let isGpsProvider := loc.provider == GPS_PROVIDER
    let s1 := { s with
      bestLocationFound := updateBestLocationIfBetter loc s.bestLocationFound }
    if shouldReturnGpsLocationImmediately isGpsProvider loc.getAccuracy then
      completeLocationRequest loc s1
    else if shouldReturnNetworkLocationAfterDelay isGpsProvider elapsed
        loc.getAccuracy then
      completeLocationRequest loc s1
    else s1

/-- The body of the lambda scheduled by `scheduleNetworkProviderStart`
(lines 215–245). Its guard reads the `isCompleted : Boolean` PARAMETER
of `scheduleNetworkProviderStart` — a by-value snapshot taken when the
timer was scheduled, not the current `isRequestCompleted`. -/
def networkProviderStartCallback (capturedIsCompleted : Bool)
    (s : SessionState) : SessionState :=
  if !capturedIsCompleted then { s with networkActive := true }
  else s

/-- Firing of the grace-delay timer. `startLocationRequest` (line 125)
calls `scheduleNetworkProviderStart(locationListener, isRequestCompleted)`
synchronously, before any callback can run, so the captured snapshot is
always `false`; the timer is only scheduled when the network provider is
enabled. -/
def networkTimerFire (cfg : Config) (s : SessionState) : SessionState :=
  if cfg.networkEnabled then networkProviderStartCallback false s
  else s

/-- The body of the lambda scheduled by `scheduleTimeoutHandler`
(lines 248–270); this one reads the live `isCompleted` getter. -/
def timeoutTimerFire (s : SessionState) : SessionState :=
  if s.isRequestCompleted then s
  else
    let s1 := { s with isRequestCompleted := true
                       gpsActive := false
                       networkActive := false }
    match s.bestLocationFound with
    | some b => { s1 with outcome := some (.resolved b.latitude b.longitude) }
    | none => { s1 with outcome := some (.rejected "TIMEOUT") }

/-- One serialized callback delivery. -/
def step (cfg : Config) (s : SessionState) : Event → SessionState
  | .locationUpdate loc elapsed => onLocationChanged loc elapsed s
  | .networkTimer => networkTimerFire cfg s
  | .timeoutTimer => timeoutTimerFire s

/-- Session state right after `startLocationRequest` returns:
`isRequestCompleted = false`, no best fix, the GPS listener registered
when the GPS provider is enabled (`startGpsProvider`), the network
listener not yet registered. -/
def initialState (cfg : Config) : SessionState :=
  { isRequestCompleted := false
    bestLocationFound := none
    gpsActive := cfg.gpsEnabled
    networkActive := false
    outcome := none }

/-- A whole session: fold the serialized events over the initial
state. -/
def run (cfg : Config) (events : List Event) : SessionState :=
  events.foldl (step cfg) (initialState cfg)

/-! ## The proximity matcher (src/App.js)

`calculateDistanceBetweenPoints` (lines 176–197) is the haversine
formula over JavaScript numbers; it is embedded over the reals.
The nearest-candidate scan (lines 298–312) is a `reduce` with strict
`<` starting from `{distance: Infinity}`; `Infinity` is embedded as
`⊤ : WithTop ℝ`.
-/

open Real

/-- Modelled from the ECMAScript `Math.atan2(y, x)` specification
(for finite arguments, ignoring the sign of zero): the angle of the
point `(x, y)`, in `(−π, π]`. -/
noncomputable def atan2 (y x : ℝ) : ℝ :=
  if 0 < x then arctan (y / x)
  else if x < 0 then
    (if 0 ≤ y then arctan (y / x) + π else arctan (y / x) - π)
  else
    (if 0 < y then π / 2 else if y < 0 then -(π / 2) else 0)

/-- `EARTH_RADIUS_METERS` (line 178). -/
def EARTH_RADIUS_METERS : ℝ := 6371e3

/-- The intermediate `haversineFormula` value of
`calculateDistanceBetweenPoints` (lines 184–189):
`sin²(Δlat/2) + cos(lat1)·cos(lat2)·sin²(Δlon/2)`, with degrees
converted to radians by `· * π / 180`. -/
noncomputable def haversineFormula (lat1 lon1 lat2 lon2 : ℝ) : ℝ :=
  sin ((lat2 - lat1) * π / 180 / 2) * sin ((lat2 - lat1) * π / 180 / 2) +
    cos (lat1 * π / 180) * cos (lat2 * π / 180) *
      sin ((lon2 - lon1) * π / 180 / 2) * sin ((lon2 - lon1) * π / 180 / 2)

/-- `calculateDistanceBetweenPoints` (lines 176–197):
`R · 2 · atan2(√h, √(1−h))`. -/
noncomputable def calculateDistanceBetweenPoints
    (lat1 lon1 lat2 lon2 : ℝ) : ℝ :=
  EARTH_RADIUS_METERS * 2 *
    atan2 (Real.sqrt (haversineFormula lat1 lon1 lat2 lon2))
      (Real.sqrt (1 - haversineFormula lat1 lon1 lat2 lon2))

/-- A saved location as the JavaScript side holds it (a row fetched
from the store). -/
structure SavedLocation where
  id : ℕ
  latitude : ℝ
  longitude : ℝ
  timestamp : String
  name : String

/-- The accumulator of the `reduce` in
`checkCurrentLocationAgainstSaved`: the candidate found so far (absent
in the initial accumulator) and its distance (`Infinity` initially,
embedded as `⊤`). -/
structure NearestAcc where
  location : Option SavedLocation
  distance : WithTop ℝ

/-- The body of the `reduce` in `checkCurrentLocationAgainstSaved`
(lines 300–310): `distanceToSaved < accumulator.distance ? {new} :
accumulator`, generalized over the per-candidate distance. -/
noncomputable def nearestStep (dist : SavedLocation → ℝ)
    (accumulator : NearestAcc) (savedLocation : SavedLocation) :
    NearestAcc :=
  if (dist savedLocation : WithTop ℝ) < accumulator.distance then
    ⟨some savedLocation, (dist savedLocation : WithTop ℝ)⟩
  else accumulator

/-- The linear scan of `checkCurrentLocationAgainstSaved`
(lines 298–312): `reduce` of `nearestStep` from `{distance: Infinity}`. -/
noncomputable def nearestScan (dist : SavedLocation → ℝ)
    (candidates : List SavedLocation) : NearestAcc :=
  candidates.foldl (nearestStep dist) ⟨none, ⊤⟩

/-- `findNearest` (§4.2 of the spec): the scan instantiated with the
haversine distance from the query point, exactly as
`checkCurrentLocationAgainstSaved` computes `closestLocation`. -/
noncomputable def findNearest (latitude longitude : ℝ)
    (savedLocations : List SavedLocation) : NearestAcc :=
  nearestScan
    (fun savedLocation => calculateDistanceBetweenPoints latitude longitude
      savedLocation.latitude savedLocation.longitude)
    savedLocations

/-! ## Helper lemmas about the arbitration session -/

/-- `updateBestLocationIfBetter` always produces a best fix. -/
lemma updateBestLocationIfBetter_isSome (loc : Location)
    (ob : Option Location) :
    (updateBestLocationIfBetter loc ob).isSome = true := by
  cases ob with
  | none => rfl
  | some b =>
      by_cases hlt : loc.getAccuracy < b.getAccuracy <;>
        simp [updateBestLocationIfBetter, hlt]

/-- Processing a fix while the session is unresolved leaves a best fix
behind, whatever else it does. -/
lemma onLocationChanged_best_isSome (loc : Location) (elapsed : ℤ)
    (s : SessionState) (h : s.isRequestCompleted = false) :
    (onLocationChanged loc elapsed s).bestLocationFound.isSome = true := by
  have hu := updateBestLocationIfBetter_isSome loc s.bestLocationFound
  simp only [onLocationChanged, completeLocationRequest, h,
    Bool.false_eq_true, if_false]
  split
  · simpa using hu
  · split
    · simpa using hu
    · simpa using hu

/-- No step forgets an existing best fix. -/
lemma step_best_isSome (cfg : Config) (s : SessionState) (ev : Event)
    (h : s.bestLocationFound.isSome = true) :
    (step cfg s ev).bestLocationFound.isSome = true := by
  cases ev with
  | locationUpdate loc elapsed =>
      rcases Bool.eq_false_or_eq_true s.isRequestCompleted with ht | hf
      · simp [step, onLocationChanged, ht, h]
      · simpa only [step] using onLocationChanged_best_isSome loc elapsed s hf
  | networkTimer =>
      simp only [step, networkTimerFire, networkProviderStartCallback]
      by_cases hne : cfg.networkEnabled <;> simp [hne, h]
  | timeoutTimer =>
      simp only [step, timeoutTimerFire]
      rcases Bool.eq_false_or_eq_true s.isRequestCompleted with ht | hf
      · simp [ht, h]
      · cases hb : s.bestLocationFound with
        | none => rw [hb] at h; simp at h
        | some b => simp [hf, hb]

/-- A best fix, once present, survives any sequence of callbacks. -/
lemma foldl_best_isSome (cfg : Config) (tr : List Event)
    (s : SessionState) (h : s.bestLocationFound.isSome = true) :
    (tr.foldl (step cfg) s).bestLocationFound.isSome = true := by
  induction tr generalizing s with
  | nil => exact h
  | cons ev tr ih => exact ih _ (step_best_isSome cfg s ev h)

/-- `isRequestCompleted` is never reset by any callback. -/
lemma step_completed_mono (cfg : Config) (s : SessionState) (ev : Event)
    (h : s.isRequestCompleted = true) :
    (step cfg s ev).isRequestCompleted = true := by
  cases ev with
  | locationUpdate loc elapsed =>
      simp [step, onLocationChanged, h]
  | networkTimer =>
      simp only [step, networkTimerFire, networkProviderStartCallback]
      by_cases hne : cfg.networkEnabled <;> simp [hne, h]
  | timeoutTimer =>
      simp [step, timeoutTimerFire, h]

/-- Completion is monotone along a whole event sequence. -/
lemma foldl_completed_mono (cfg : Config) (tr : List Event)
    (s : SessionState) (h : s.isRequestCompleted = true) :
    (tr.foldl (step cfg) s).isRequestCompleted = true := by
  induction tr generalizing s with
  | nil => exact h
  | cons ev tr ih => exact ih _ (step_completed_mono cfg s ev h)

/-- When no fix event is delivered, no best fix ever appears: the
timers never touch `bestLocationFound`. -/
lemma foldl_best_none_of_no_fix (cfg : Config) (tr : List Event)
    (s : SessionState) (h : s.bestLocationFound = none)
    (hnf : ∀ loc elapsed, Event.locationUpdate loc elapsed ∉ tr) :
    (tr.foldl (step cfg) s).bestLocationFound = none := by
  induction tr generalizing s with
  | nil => exact h
  | cons ev tr ih =>
      cases ev with
      | locationUpdate loc elapsed =>
          exact absurd (List.mem_cons_self _ _) (hnf loc elapsed)
      | networkTimer =>
          refine ih _ ?_ (fun loc e hm => hnf loc e (List.mem_cons_of_mem _ hm))
          simp only [step, networkTimerFire, networkProviderStartCallback]
          by_cases hne : cfg.networkEnabled <;> simp [hne, h]
      | timeoutTimer =>
          refine ih _ ?_ (fun loc e hm => hnf loc e (List.mem_cons_of_mem _ hm))
          simp only [step, timeoutTimerFire]
          rcases Bool.eq_false_or_eq_true s.isRequestCompleted with ht | hf
          · simp [ht, h]
          · simp [hf, h]

/-- If the session is still unresolved after delivering a sequence that
contains at least one fix, a best fix is present. -/
lemma foldl_best_isSome_of_fix (cfg : Config) (tr : List Event)
    (s : SessionState)
    (hc : (tr.foldl (step cfg) s).isRequestCompleted = false)
    (hmem : ∃ loc elapsed, Event.locationUpdate loc elapsed ∈ tr) :
    (tr.foldl (step cfg) s).bestLocationFound.isSome = true := by
  induction tr generalizing s with
  | nil => obtain ⟨loc, e, hm⟩ := hmem; exact absurd hm (List.not_mem_nil _)
  | cons ev tr ih =>
      simp only [List.foldl_cons] at hc ⊢
      obtain ⟨loc, e, hm⟩ := hmem
      rcases List.mem_cons.mp hm with hev | hm'
      · subst hev
        rcases Bool.eq_false_or_eq_true s.isRequestCompleted with ht | hf
        · exact absurd (foldl_completed_mono cfg tr _
            (step_completed_mono cfg s _ ht)) (by rw [hc]; simp)
        · have hbest : (step cfg s (.locationUpdate loc e)
              ).bestLocationFound.isSome = true := by
            simpa only [step] using onLocationChanged_best_isSome loc e s hf
          exact foldl_best_isSome cfg tr _ hbest
      · exact ih _ hc ⟨loc, e, hm'⟩

/-! ## Claim theorems: persistence layer -/

/-- C3 (code behavior at the failing input): `addLocation` with
`latitude = 0`, a valid longitude, timestamp and non-empty name throws
the validation error instead of succeeding, because `!latitude` is true
for the falsy number `0`. -/
theorem C3_addLocation_rejects_zero_latitude (st : Store) :
    addLocation 0 (1058 / 10 : ℚ) "2025-01-01T00:00:00.000Z" "Home" st
      = .error "All location fields are required" := rfl

/-- C10: `deleteLocation` applied to the numeric id `0` throws
`'Valid location ID is required'` rather than returning `false`, because
the id is validated with a truthiness check; and whenever
`deleteLocation` reaches the DELETE statement (returns `.ok`), the id
was a non-zero number. -/
theorem C10_deleteLocation_zero_id_throws :
    (∀ st : Store, deleteLocation (.num 0) st
        = .error "Valid location ID is required") ∧
    (∀ (id : JsVal) (st : Store) (r : Store × Bool),
      deleteLocation id st = .ok r → ∃ x : ℚ, id = .num x ∧ x ≠ 0) := by
  constructor
  · intro st; rfl
  · intro id st r h
    cases id with
    | num x =>
        by_cases hx : x = 0
        · subst hx
          simp [deleteLocation, JsVal.jsTruthy, jsTruthyNum,
            JsVal.isNumber] at h
        · exact ⟨x, rfl, hx⟩
    | other t =>
        simp [deleteLocation, JsVal.jsTruthy, JsVal.isNumber] at h

/-- C10 witness: a concrete successful deletion, obtained through the
theorem's second conjunct. -/
theorem C10_deleteLocation_zero_id_throws_witness :
    deleteLocation (.num 1) ⟨[⟨1, 5, 6, "2025-01-01", "Home"⟩], 2⟩
        = .ok (⟨[], 2⟩, true) ∧
    ∃ x : ℚ, JsVal.num 1 = .num x ∧ x ≠ 0 :=
  ⟨rfl, C10_deleteLocation_zero_id_throws.2 (.num 1)
    ⟨[⟨1, 5, 6, "2025-01-01", "Home"⟩], 2⟩ (⟨[], 2⟩, true) rfl⟩

/-! ## Claim theorems: arbitration session -/

/-- C1 (code behavior at the failing session): a GPS fix of accuracy
10 m at 1 s resolves the session, yet the grace-delay timer firing
afterwards still subscribes the network provider, because
`scheduleNetworkProviderStart` tests the by-value `isCompleted`
snapshot captured at session start instead of the live flag. -/
theorem C1_graceTimer_subscribes_after_resolution :
    (run ⟨true, true⟩
      [.locationUpdate ⟨GPS_PROVIDER, some 10, 1, 2⟩ 1000, .networkTimer]
      ).isRequestCompleted = true ∧
    (run ⟨true, true⟩
      [.locationUpdate ⟨GPS_PROVIDER, some 10, 1, 2⟩ 1000, .networkTimer]
      ).networkActive = true :=
  ⟨rfl, rfl⟩

/-- C2 counterexample: a network fix with absent accuracy (read as
`0.0` by the platform accessor) DOES replace an existing best fix of
known accuracy 10 m, contradicting the claim that it never replaces a
best fix with known accuracy. -/
theorem C2_unknown_accuracy_counterexample :
    updateBestLocationIfBetter ⟨NETWORK_PROVIDER, none, 3, 4⟩
        (some ⟨GPS_PROVIDER, some 10, 1, 2⟩)
      = some ⟨NETWORK_PROVIDER, none, 3, 4⟩ := rfl

/-- C2 amended: in the best-fix update, a fix with unknown/absent
accuracy is read as accuracy `0` and is therefore treated as at least
as good as every fix: it replaces the current best whenever the best's
accuracy value is positive, and it becomes the best fix when no best
fix exists yet. -/
theorem C2_amended_unknown_accuracy_wins (f b : Location)
    (hf : f.accuracy = none) (hb : 0 < b.getAccuracy) :
    updateBestLocationIfBetter f (some b) = some f ∧
    updateBestLocationIfBetter f none = some f := by
  have h0 : f.getAccuracy = 0 := by simp [Location.getAccuracy, hf]
  exact ⟨by simp [updateBestLocationIfBetter, h0, hb], rfl⟩

/-- C2 witness: the amended statement at a concrete absent-accuracy fix
and a concrete best fix of accuracy 10 m. -/
theorem C2_amended_unknown_accuracy_wins_witness :
    (⟨NETWORK_PROVIDER, none, 3, 4⟩ : Location).accuracy = none ∧
    (0 : ℚ) < (⟨GPS_PROVIDER, some 10, 1, 2⟩ : Location).getAccuracy ∧
    (updateBestLocationIfBetter ⟨NETWORK_PROVIDER, none, 3, 4⟩
        (some ⟨GPS_PROVIDER, some 10, 1, 2⟩)
      = some ⟨NETWORK_PROVIDER, none, 3, 4⟩ ∧
     updateBestLocationIfBetter ⟨NETWORK_PROVIDER, none, 3, 4⟩ none
      = some ⟨NETWORK_PROVIDER, none, 3, 4⟩) :=
  ⟨rfl, by decide,
    C2_amended_unknown_accuracy_wins _ _ rfl (by decide)⟩

/-- C4: a session still unresolved when the timeout timer fires
resolves with the best fix when at least one fix was delivered during
the session, and rejects with `TIMEOUT` when no fix was ever
delivered — never the other way around. -/
theorem C4_timeout_resolution (cfg : Config) (tr : List Event)
    (h : (run cfg tr).isRequestCompleted = false) :
    ((∃ loc elapsed, Event.locationUpdate loc elapsed ∈ tr) →
      ∃ b, (run cfg tr).bestLocationFound = some b ∧
        (run cfg (tr ++ [.timeoutTimer])).outcome
          = some (.resolved b.latitude b.longitude)) ∧
    ((∀ loc elapsed, Event.locationUpdate loc elapsed ∉ tr) →
      (run cfg (tr ++ [.timeoutTimer])).outcome
        = some (.rejected "TIMEOUT")) := by
  have hrun : run cfg (tr ++ [.timeoutTimer])
      = step cfg (run cfg tr) .timeoutTimer := by
    simp [run, List.foldl_append]
  constructor
  · intro hmem
    have hsome : (run cfg tr).bestLocationFound.isSome = true :=
      foldl_best_isSome_of_fix cfg tr (initialState cfg) h hmem
    obtain ⟨b, hb⟩ := Option.isSome_iff_exists.mp hsome
    refine ⟨b, hb, ?_⟩
    rw [hrun]
    simp only [step, timeoutTimerFire]
    simp [h, hb]
  · intro hnf
    have hnone : (run cfg tr).bestLocationFound = none :=
      foldl_best_none_of_no_fix cfg tr (initialState cfg) rfl hnf
    rw [hrun]
    simp only [step, timeoutTimerFire]
    simp [h, hnone]

/-- C4 witness: a session that received one non-resolving network fix
is still unresolved at the deadline and then resolves with that fix. -/
theorem C4_timeout_resolution_witness :
    (run ⟨true, true⟩
      [.locationUpdate ⟨NETWORK_PROVIDER, some 30, 7, 8⟩ 1000]
      ).isRequestCompleted = false ∧
    ∃ b, (run ⟨true, true⟩
        [.locationUpdate ⟨NETWORK_PROVIDER, some 30, 7, 8⟩ 1000]
        ).bestLocationFound = some b ∧
      (run ⟨true, true⟩
        ([.locationUpdate ⟨NETWORK_PROVIDER, some 30, 7, 8⟩ 1000]
          ++ [.timeoutTimer])).outcome
        = some (.resolved b.latitude b.longitude) :=
  ⟨rfl, (C4_timeout_resolution ⟨true, true⟩
      [.locationUpdate ⟨NETWORK_PROVIDER, some 30, 7, 8⟩ 1000] rfl).1
    ⟨⟨NETWORK_PROVIDER, some 30, 7, 8⟩, 1000, List.mem_cons_self _ _⟩⟩

/-- C5: a fix from the network (approximate) source whose elapsed time
since session start is not strictly greater than the grace delay never
resolves the session, whatever its accuracy: completion flag and
promise outcome are unchanged. -/
theorem C5_network_fix_within_grace_never_resolves (cfg : Config)
    (s : SessionState) (loc : Location) (elapsed : ℤ)
    (hp : loc.provider = NETWORK_PROVIDER)
    (he : elapsed ≤ NETWORK_FALLBACK_DELAY) :
    (step cfg s (.locationUpdate loc elapsed)).isRequestCompleted
        = s.isRequestCompleted ∧
    (step cfg s (.locationUpdate loc elapsed)).outcome = s.outcome := by
  simp only [step]
  rcases Bool.eq_false_or_eq_true s.isRequestCompleted with hc | hc
  · simp [onLocationChanged, hc]
  · have hg : (loc.provider == GPS_PROVIDER) = false := by
      rw [hp]; decide
    have hne : ¬(NETWORK_FALLBACK_DELAY < elapsed) := not_lt.mpr he
    have h1 : shouldReturnGpsLocationImmediately false loc.getAccuracy
        = false := by
      simp [shouldReturnGpsLocationImmediately]
    have h2 : shouldReturnNetworkLocationAfterDelay false elapsed
        loc.getAccuracy = false := by
      simp [shouldReturnNetworkLocationAfterDelay, hne]
    simp [onLocationChanged, hc, hg, h1, h2]

/-- C5 witness: a network fix of accuracy 10 m (well within the
acceptable 50 m) arriving at 3 s leaves the fresh session unresolved. -/
theorem C5_network_fix_within_grace_never_resolves_witness :
    (⟨NETWORK_PROVIDER, some 10, 1, 2⟩ : Location).provider
        = NETWORK_PROVIDER ∧
    (3000 : ℤ) ≤ NETWORK_FALLBACK_DELAY ∧
    ((step ⟨true, true⟩ (initialState ⟨true, true⟩)
        (.locationUpdate ⟨NETWORK_PROVIDER, some 10, 1, 2⟩ 3000)
        ).isRequestCompleted
      = (initialState ⟨true, true⟩).isRequestCompleted ∧
     (step ⟨true, true⟩ (initialState ⟨true, true⟩)
        (.locationUpdate ⟨NETWORK_PROVIDER, some 10, 1, 2⟩ 3000)
        ).outcome = (initialState ⟨true, true⟩).outcome) :=
  ⟨rfl, by decide,
    C5_network_fix_within_grace_never_resolves ⟨true, true⟩ _ _ 3000
      rfl (by decide)⟩

/-- C6: for two fixes with known accuracies `a1 < a2`, both processed
by the best-fix update with neither triggering immediate resolution,
the session's best fix is the more accurate fix `f1` in either arrival
order. -/
theorem C6_best_fix_order_independent (cfg : Config)
    (f1 f2 : Location) (e1 e2 : ℤ) (a1 a2 : ℚ)
    (h1 : f1.accuracy = some a1) (h2 : f2.accuracy = some a2)
    (hlt : a1 < a2)
    (hg1 : shouldReturnGpsLocationImmediately
      (f1.provider == GPS_PROVIDER) f1.getAccuracy = false)
    (hn1 : shouldReturnNetworkLocationAfterDelay
      (f1.provider == GPS_PROVIDER) e1 f1.getAccuracy = false)
    (hg2 : shouldReturnGpsLocationImmediately
      (f2.provider == GPS_PROVIDER) f2.getAccuracy = false)
    (hn2 : shouldReturnNetworkLocationAfterDelay
      (f2.provider == GPS_PROVIDER) e2 f2.getAccuracy = false) :
    (run cfg [.locationUpdate f1 e1, .locationUpdate f2 e2]
      ).bestLocationFound = some f1 ∧
    (run cfg [.locationUpdate f2 e2, .locationUpdate f1 e1]
      ).bestLocationFound = some f1 := by
  have ha1 : f1.getAccuracy = a1 := by simp [Location.getAccuracy, h1]
  have ha2 : f2.getAccuracy = a2 := by simp [Location.getAccuracy, h2]
  rw [ha1] at hg1 hn1
  rw [ha2] at hg2 hn2
  have hs1 : onLocationChanged f1 e1 (initialState cfg)
      = { initialState cfg with bestLocationFound := some f1 } := by
    simp [onLocationChanged, initialState, ha1, hg1, hn1,
      updateBestLocationIfBetter]
  have hs2 : onLocationChanged f2 e2 (initialState cfg)
      = { initialState cfg with bestLocationFound := some f2 } := by
    simp [onLocationChanged, initialState, ha2, hg2, hn2,
      updateBestLocationIfBetter]
  constructor
  · simp only [run, List.foldl_cons, List.foldl_nil, step, hs1]
    simp [onLocationChanged, initialState, ha1, ha2, hg2, hn2,
      updateBestLocationIfBetter, hlt.asymm]
  · simp only [run, List.foldl_cons, List.foldl_nil, step, hs2]
    simp [onLocationChanged, initialState, ha1, ha2, hg1, hn1,
      updateBestLocationIfBetter, hlt]

/-- C6 witness: two GPS fixes of accuracies 25 m and 30 m (neither
within the 20 m fast path), in both orders. -/
theorem C6_best_fix_order_independent_witness :
    (⟨GPS_PROVIDER, some 25, 1, 2⟩ : Location).accuracy = some 25 ∧
    (⟨GPS_PROVIDER, some 30, 3, 4⟩ : Location).accuracy = some 30 ∧
    (25 : ℚ) < 30 ∧
    ((run ⟨true, true⟩
        [.locationUpdate ⟨GPS_PROVIDER, some 25, 1, 2⟩ 1000,
         .locationUpdate ⟨GPS_PROVIDER, some 30, 3, 4⟩ 2000]
        ).bestLocationFound = some ⟨GPS_PROVIDER, some 25, 1, 2⟩ ∧
     (run ⟨true, true⟩
        [.locationUpdate ⟨GPS_PROVIDER, some 30, 3, 4⟩ 2000,
         .locationUpdate ⟨GPS_PROVIDER, some 25, 1, 2⟩ 1000]
        ).bestLocationFound = some ⟨GPS_PROVIDER, some 25, 1, 2⟩) :=
  ⟨rfl, rfl, by decide,
    C6_best_fix_order_independent ⟨true, true⟩ _ _ 1000 2000 25 30
      rfl rfl (by decide) (by decide) (by decide) (by decide) (by decide)⟩

/-! ## Helper lemmas about `atan2` and the haversine distance -/

/-- Monotonicity consequence: `arctan` of a non-negative number is
non-negative. -/
lemma arctan_nonneg_of_nonneg (t : ℝ) (h : 0 ≤ t) : 0 ≤ arctan t :=
  calc (0 : ℝ) = arctan 0 := arctan_zero.symm
    _ ≤ arctan t := arctan_strictMono.monotone h

/-- In the first quadrant (both arguments non-negative), `atan2` is
non-negative. -/
lemma atan2_nonneg (y x : ℝ) (hy : 0 ≤ y) (hx : 0 ≤ x) :
    0 ≤ atan2 y x := by
  unfold atan2
  by_cases h1 : 0 < x
  · rw [if_pos h1]
    exact arctan_nonneg_of_nonneg _ (div_nonneg hy h1.le)
  · rw [if_neg h1, if_neg (not_lt.mpr hx)]
    by_cases h4 : 0 < y
    · rw [if_pos h4]
      linarith [Real.pi_pos]
    · rw [if_neg h4, if_neg (not_lt.mpr hy)]

/-- In the first quadrant, `atan2 y x = 0` exactly when `y = 0`. -/
lemma atan2_eq_zero_iff_of_nonneg (y x : ℝ) (hy : 0 ≤ y) (hx : 0 ≤ x) :
    atan2 y x = 0 ↔ y = 0 := by
  unfold atan2
  by_cases h1 : 0 < x
  · rw [if_pos h1, arctan_eq_zero_iff, div_eq_zero_iff]
    exact ⟨fun h => h.resolve_right h1.ne', fun h => Or.inl h⟩
  · rw [if_neg h1, if_neg (not_lt.mpr hx)]
    by_cases h4 : 0 < y
    · rw [if_pos h4]
      constructor
      · intro h; exfalso; have := Real.pi_pos; linarith
      · intro h; exact absurd (h ▸ h4) (lt_irrefl 0)
    · rw [if_neg h4, if_neg (not_lt.mpr hy)]
      exact ⟨fun _ => le_antisymm (not_lt.mp h4) hy, fun _ => rfl⟩

/-- The haversine distance is non-negative for every input. -/
lemma calculateDistanceBetweenPoints_nonneg (lat1 lon1 lat2 lon2 : ℝ) :
    0 ≤ calculateDistanceBetweenPoints lat1 lon1 lat2 lon2 := by
  unfold calculateDistanceBetweenPoints
  have h := atan2_nonneg _ _
    (Real.sqrt_nonneg (haversineFormula lat1 lon1 lat2 lon2))
    (Real.sqrt_nonneg (1 - haversineFormula lat1 lon1 lat2 lon2))
  have hE : (0 : ℝ) ≤ EARTH_RADIUS_METERS * 2 := by
    norm_num [EARTH_RADIUS_METERS]
  exact mul_nonneg hE h

/-- The distance vanishes exactly when the haversine intermediate value
is non-positive. -/
lemma calculateDistanceBetweenPoints_eq_zero_iff (lat1 lon1 lat2 lon2 : ℝ) :
    calculateDistanceBetweenPoints lat1 lon1 lat2 lon2 = 0 ↔
      haversineFormula lat1 lon1 lat2 lon2 ≤ 0 := by
  unfold calculateDistanceBetweenPoints
  have hR : (EARTH_RADIUS_METERS * 2 : ℝ) ≠ 0 := by
    norm_num [EARTH_RADIUS_METERS]
  rw [mul_eq_zero, or_iff_right hR,
    atan2_eq_zero_iff_of_nonneg _ _ (Real.sqrt_nonneg _)
      (Real.sqrt_nonneg _),
    Real.sqrt_eq_zero']

/-- The haversine intermediate value vanishes on coincident points. -/
lemma haversineFormula_self (a b : ℝ) : haversineFormula a b a b = 0 := by
  unfold haversineFormula
  simp

/-- The distance from a point to itself is `0`. -/
lemma calculateDistanceBetweenPoints_self (a b : ℝ) :
    calculateDistanceBetweenPoints a b a b = 0 := by
  rw [calculateDistanceBetweenPoints_eq_zero_iff, haversineFormula_self]

/-- Away from the poles and with longitudes less than a full turn
apart, a non-positive haversine value forces equal coordinates. -/
lemma haversineFormula_nonpos_imp_eq (lat1 lon1 lat2 lon2 : ℝ)
    (h1 : |lat1| < 90) (h2 : |lat2| < 90) (hlon : |lon1 - lon2| < 360)
    (hle : haversineFormula lat1 lon1 lat2 lon2 ≤ 0) :
    lat1 = lat2 ∧ lon1 = lon2 := by
  obtain ⟨h1l, h1r⟩ := abs_lt.mp h1
  obtain ⟨h2l, h2r⟩ := abs_lt.mp h2
  obtain ⟨hll, hlr⟩ := abs_lt.mp hlon
  have hπ := Real.pi_pos
  unfold haversineFormula at hle
  have hc1 : 0 < Real.cos (lat1 * π / 180) := by
    apply Real.cos_pos_of_mem_Ioo
    constructor
    · nlinarith [mul_pos (show (0 : ℝ) < lat1 + 90 by linarith) hπ]
    · nlinarith [mul_pos (show (0 : ℝ) < 90 - lat1 by linarith) hπ]
  have hc2 : 0 < Real.cos (lat2 * π / 180) := by
    apply Real.cos_pos_of_mem_Ioo
    constructor
    · nlinarith [mul_pos (show (0 : ℝ) < lat2 + 90 by linarith) hπ]
    · nlinarith [mul_pos (show (0 : ℝ) < 90 - lat2 by linarith) hπ]
  have hA1 : -π < (lat2 - lat1) * π / 180 / 2 := by
    nlinarith [mul_pos (show (0 : ℝ) < (lat2 - lat1) + 360 by linarith) hπ]
  have hA2 : (lat2 - lat1) * π / 180 / 2 < π := by
    nlinarith [mul_pos (show (0 : ℝ) < 360 - (lat2 - lat1) by linarith) hπ]
  have hB1 : -π < (lon2 - lon1) * π / 180 / 2 := by
    nlinarith [mul_pos (show (0 : ℝ) < (lon2 - lon1) + 360 by linarith) hπ]
  have hB2 : (lon2 - lon1) * π / 180 / 2 < π := by
    nlinarith [mul_pos (show (0 : ℝ) < 360 - (lon2 - lon1) by linarith) hπ]
  have t1 : 0 ≤ Real.sin ((lat2 - lat1) * π / 180 / 2) *
      Real.sin ((lat2 - lat1) * π / 180 / 2) := mul_self_nonneg _
  have t2 : 0 ≤ Real.cos (lat1 * π / 180) * Real.cos (lat2 * π / 180) *
      Real.sin ((lon2 - lon1) * π / 180 / 2) *
      Real.sin ((lon2 - lon1) * π / 180 / 2) := by
    nlinarith [mul_pos hc1 hc2,
      mul_self_nonneg (Real.sin ((lon2 - lon1) * π / 180 / 2))]
  have e1 : Real.sin ((lat2 - lat1) * π / 180 / 2) *
      Real.sin ((lat2 - lat1) * π / 180 / 2) = 0 := by linarith
  have e2 : Real.cos (lat1 * π / 180) * Real.cos (lat2 * π / 180) *
      Real.sin ((lon2 - lon1) * π / 180 / 2) *
      Real.sin ((lon2 - lon1) * π / 180 / 2) = 0 := by linarith
  have sA : Real.sin ((lat2 - lat1) * π / 180 / 2) = 0 :=
    mul_self_eq_zero.mp e1
  have sB : Real.sin ((lon2 - lon1) * π / 180 / 2) = 0 := by
    rcases mul_eq_zero.mp e2 with h' | h'
    · rcases mul_eq_zero.mp h' with h'' | h''
      · exact absurd h'' (mul_pos hc1 hc2).ne'
      · exact h''
    · exact h'
  have hA0 : (lat2 - lat1) * π / 180 / 2 = 0 :=
    (Real.sin_eq_zero_iff_of_lt_of_lt hA1 hA2).mp sA
  have hB0 : (lon2 - lon1) * π / 180 / 2 = 0 :=
    (Real.sin_eq_zero_iff_of_lt_of_lt hB1 hB2).mp sB
  have hA' : (lat2 - lat1) * π = 0 := by linarith
  have hB' : (lon2 - lon1) * π = 0 := by linarith
  constructor
  · rcases mul_eq_zero.mp hA' with h' | h'
    · linarith
    · exact absurd h' Real.pi_ne_zero
  · rcases mul_eq_zero.mp hB' with h' | h'
    · linarith
    · exact absurd h' Real.pi_ne_zero

/-! ## Helper lemmas about the nearest-candidate scan -/

/-- Once the accumulator holds a candidate whose distance is minimal
among the remaining candidates, the scan never replaces it (strict
`<` keeps the incumbent on ties). -/
lemma nearestScan_keeps_min (dist : SavedLocation → ℝ)
    (l : List SavedLocation) (b : SavedLocation)
    (hmin : ∀ x ∈ l, dist b ≤ dist x) :
    l.foldl (nearestStep dist) ⟨some b, (dist b : WithTop ℝ)⟩
      = ⟨some b, (dist b : WithTop ℝ)⟩ := by
  induction l with
  | nil => rfl
  | cons x l ih =>
      have hx : ¬((dist x : WithTop ℝ)
          < ((⟨some b, (dist b : WithTop ℝ)⟩ : NearestAcc)).distance) := by
        exact not_lt.mpr (WithTop.coe_le_coe.mpr
          (hmin x (List.mem_cons_self _ _)))
      simp only [List.foldl_cons, nearestStep, if_neg hx]
      exact ih (fun x hx' => hmin x (List.mem_cons_of_mem _ hx'))

/-- The scan either leaves the accumulator untouched or ends on some
visited candidate paired with its own distance. -/
lemma nearestScan_shape (dist : SavedLocation → ℝ)
    (l : List SavedLocation) (acc : NearestAcc) :
    l.foldl (nearestStep dist) acc = acc ∨
      ∃ m ∈ l, l.foldl (nearestStep dist) acc
        = ⟨some m, (dist m : WithTop ℝ)⟩ := by
  induction l generalizing acc with
  | nil => exact Or.inl rfl
  | cons x l ih =>
      simp only [List.foldl_cons]
      by_cases hx : (dist x : WithTop ℝ) < acc.distance
      · have hstep : nearestStep dist acc x
            = ⟨some x, (dist x : WithTop ℝ)⟩ := by
          simp [nearestStep, hx]
        rw [hstep]
        rcases ih ⟨some x, (dist x : WithTop ℝ)⟩ with h | ⟨m, hm, h⟩
        · exact Or.inr ⟨x, List.mem_cons_self _ _, h⟩
        · exact Or.inr ⟨m, List.mem_cons_of_mem _ hm, h⟩
      · have hstep : nearestStep dist acc x = acc := by
          simp [nearestStep, hx]
        rw [hstep]
        rcases ih acc with h | ⟨m, hm, h⟩
        · exact Or.inl h
        · exact Or.inr ⟨m, List.mem_cons_of_mem _ hm, h⟩

/-! ## Claim theorems: proximity matcher -/

/-- C8: the nearest-match computation on an empty candidate sequence
returns no candidate and distance `+infinity` (the initial accumulator),
for every query point; being a total function, it never fails. -/
theorem C8_findNearest_empty (latitude longitude : ℝ) :
    findNearest latitude longitude [] = ⟨none, ⊤⟩ := rfl

/-- C7: the scan uses a single pass with strict less-than, so when the
candidate `c` is strictly closer than every candidate before it, at
least as close as every candidate after it, and tied with some later
candidate (two or more equidistant minimal candidates), the scan
returns `c` — the one appearing earliest in the sequence. -/
theorem C7_findNearest_tie_earliest (latitude longitude : ℝ)
    (l1 l2 : List SavedLocation) (c : SavedLocation)
    (hfirst : ∀ b ∈ l1,
      calculateDistanceBetweenPoints latitude longitude c.latitude c.longitude
        < calculateDistanceBetweenPoints latitude longitude b.latitude
            b.longitude)
    (hmin : ∀ b ∈ l2,
      calculateDistanceBetweenPoints latitude longitude c.latitude c.longitude
        ≤ calculateDistanceBetweenPoints latitude longitude b.latitude
            b.longitude)
    (htie : ∃ b ∈ l2,
      calculateDistanceBetweenPoints latitude longitude b.latitude b.longitude
        = calculateDistanceBetweenPoints latitude longitude c.latitude
            c.longitude) :
    (findNearest latitude longitude (l1 ++ c :: l2)).location = some c := by
  unfold findNearest nearestScan
  set dist := fun s : SavedLocation =>
    calculateDistanceBetweenPoints latitude longitude s.latitude s.longitude
    with hdist
  rw [List.foldl_append]
  rcases nearestScan_shape dist l1 ⟨none, ⊤⟩ with h | ⟨m, hm, h⟩
  · rw [h]
    simp only [List.foldl_cons]
    have hstep : nearestStep dist ⟨none, ⊤⟩ c
        = ⟨some c, (dist c : WithTop ℝ)⟩ := by
      simp [nearestStep]
    rw [hstep, nearestScan_keeps_min dist l2 c hmin]
  · rw [h]
    simp only [List.foldl_cons]
    have hlt : (dist c : WithTop ℝ) < (dist m : WithTop ℝ) :=
      WithTop.coe_lt_coe.mpr (hfirst m hm)
    have hstep : nearestStep dist ⟨some m, (dist m : WithTop ℝ)⟩ c
        = ⟨some c, (dist c : WithTop ℝ)⟩ := by
      simp [nearestStep, hlt]
    rw [hstep, nearestScan_keeps_min dist l2 c hmin]

/-- C7 witness: query `(0,0)`; candidates `[Far(89,0), Home(0,0),
Office(0,0)]`; `Home` and `Office` are equidistant (both at the query
point) and `Home`, the earlier one, is returned. -/
theorem C7_findNearest_tie_earliest_witness :
    (∀ b ∈ [(⟨1, 89, 0, "t1", "Far"⟩ : SavedLocation)],
      calculateDistanceBetweenPoints 0 0
          (⟨2, 0, 0, "t2", "Home"⟩ : SavedLocation).latitude
          (⟨2, 0, 0, "t2", "Home"⟩ : SavedLocation).longitude
        < calculateDistanceBetweenPoints 0 0 b.latitude b.longitude) ∧
    (∀ b ∈ [(⟨3, 0, 0, "t3", "Office"⟩ : SavedLocation)],
      calculateDistanceBetweenPoints 0 0
          (⟨2, 0, 0, "t2", "Home"⟩ : SavedLocation).latitude
          (⟨2, 0, 0, "t2", "Home"⟩ : SavedLocation).longitude
        ≤ calculateDistanceBetweenPoints 0 0 b.latitude b.longitude) ∧
    (∃ b ∈ [(⟨3, 0, 0, "t3", "Office"⟩ : SavedLocation)],
      calculateDistanceBetweenPoints 0 0 b.latitude b.longitude
        = calculateDistanceBetweenPoints 0 0
            (⟨2, 0, 0, "t2", "Home"⟩ : SavedLocation).latitude
            (⟨2, 0, 0, "t2", "Home"⟩ : SavedLocation).longitude) ∧
    (findNearest 0 0 ([⟨1, 89, 0, "t1", "Far"⟩] ++
        (⟨2, 0, 0, "t2", "Home"⟩ : SavedLocation)
          :: [⟨3, 0, 0, "t3", "Office"⟩])).location
      = some ⟨2, 0, 0, "t2", "Home"⟩ := by
  have hself : calculateDistanceBetweenPoints 0 0 0 0 = 0 :=
    calculateDistanceBetweenPoints_self 0 0
  have hpos : 0 < calculateDistanceBetweenPoints 0 0 89 0 := by
    rcases (calculateDistanceBetweenPoints_nonneg 0 0 89 0).lt_or_eq
      with h | h
    · exact h
    · exfalso
      have h0 := (calculateDistanceBetweenPoints_eq_zero_iff 0 0 89 0).mp
        h.symm
      have := haversineFormula_nonpos_imp_eq 0 0 89 0 (by norm_num)
        (by norm_num) (by norm_num) h0
      norm_num at this
  have hfirst : ∀ b ∈ [(⟨1, 89, 0, "t1", "Far"⟩ : SavedLocation)],
      calculateDistanceBetweenPoints 0 0
          (⟨2, 0, 0, "t2", "Home"⟩ : SavedLocation).latitude
          (⟨2, 0, 0, "t2", "Home"⟩ : SavedLocation).longitude
        < calculateDistanceBetweenPoints 0 0 b.latitude b.longitude := by
    intro b hb
    rw [List.mem_singleton] at hb
    subst hb
    show calculateDistanceBetweenPoints 0 0 0 0
      < calculateDistanceBetweenPoints 0 0 89 0
    rw [hself]; exact hpos
  have hmin : ∀ b ∈ [(⟨3, 0, 0, "t3", "Office"⟩ : SavedLocation)],
      calculateDistanceBetweenPoints 0 0
          (⟨2, 0, 0, "t2", "Home"⟩ : SavedLocation).latitude
          (⟨2, 0, 0, "t2", "Home"⟩ : SavedLocation).longitude
        ≤ calculateDistanceBetweenPoints 0 0 b.latitude b.longitude := by
    intro b hb
    rw [List.mem_singleton] at hb
    subst hb
    show calculateDistanceBetweenPoints 0 0 0 0
      ≤ calculateDistanceBetweenPoints 0 0 0 0
    exact le_refl _
  have htie : ∃ b ∈ [(⟨3, 0, 0, "t3", "Office"⟩ : SavedLocation)],
      calculateDistanceBetweenPoints 0 0 b.latitude b.longitude
        = calculateDistanceBetweenPoints 0 0
            (⟨2, 0, 0, "t2", "Home"⟩ : SavedLocation).latitude
            (⟨2, 0, 0, "t2", "Home"⟩ : SavedLocation).longitude :=
    ⟨⟨3, 0, 0, "t3", "Office"⟩, List.mem_singleton.mpr rfl, rfl⟩
  exact ⟨hfirst, hmin, htie,
    C7_findNearest_tie_earliest 0 0 _ _ _ hfirst hmin htie⟩

/-- C9 counterexample: the two pole coordinates `(90, 0)` and `(90, 50)`
have unequal longitude values yet haversine distance exactly `0` — the
claim's "exactly 0 only for equal latitude and longitude values" fails. -/
theorem C9_zero_distance_counterexample :
    calculateDistanceBetweenPoints 90 0 90 50 = 0 ∧ (0 : ℝ) ≠ 50 := by
  constructor
  · rw [calculateDistanceBetweenPoints_eq_zero_iff]
    unfold haversineFormula
    have e1 : ((90 : ℝ) - 90) * π / 180 / 2 = 0 := by ring
    have e2 : (90 : ℝ) * π / 180 = π / 2 := by ring
    rw [e1, e2]
    simp
  · norm_num

/-- C9 amended: the haversine distance is non-negative for every pair
of inputs; and when both latitudes lie strictly between `−90` and `90`
degrees and the longitudes differ by less than `360` degrees, it is
exactly `0` iff the two points have equal latitude and equal longitude
values (at the poles, or a full turn apart, distinct values can also
give `0`). -/
theorem C9_haversine_nonneg_zero_iff :
    (∀ lat1 lon1 lat2 lon2 : ℝ,
      0 ≤ calculateDistanceBetweenPoints lat1 lon1 lat2 lon2) ∧
    (∀ lat1 lon1 lat2 lon2 : ℝ, |lat1| < 90 → |lat2| < 90 →
      |lon1 - lon2| < 360 →
      (calculateDistanceBetweenPoints lat1 lon1 lat2 lon2 = 0 ↔
        lat1 = lat2 ∧ lon1 = lon2)) := by
  constructor
  · exact calculateDistanceBetweenPoints_nonneg
  · intro lat1 lon1 lat2 lon2 h1 h2 hlon
    rw [calculateDistanceBetweenPoints_eq_zero_iff]
    constructor
    · exact haversineFormula_nonpos_imp_eq lat1 lon1 lat2 lon2 h1 h2 hlon
    · rintro ⟨ha, hb⟩
      subst ha; subst hb
      rw [haversineFormula_self]

/-- C9 witness: the amended claim's zero-iff part at the concrete point
`(0, 0)` against itself. -/
theorem C9_haversine_nonneg_zero_iff_witness :
    |(0 : ℝ)| < 90 ∧ |(0 : ℝ) - 0| < 360 ∧
    (calculateDistanceBetweenPoints 0 0 0 0 = 0 ↔
      (0 : ℝ) = 0 ∧ (0 : ℝ) = 0) :=
  ⟨by norm_num, by norm_num,
    C9_haversine_nonneg_zero_iff.2 0 0 0 0 (by norm_num) (by norm_num)
      (by norm_num)⟩

end Locate
